import Mathlib

/-!
Verification of the webhook / subscription handlers of the nesbox server
(`packages/server/src/handles.rs`) against its design document.

The handler file is embedded shallowly: HTTP responses become values of
explicit result structures, the database becomes an explicit `Store` value,
and the broadcast channel becomes the list of messages published by one
request.  Helper modules of the repository that are not part of the handler
file (`auth`, `github`, `schemas::game`, `schemas::notify`) are modelled from
the design document; each such definition carries a doc comment saying so.
-/

namespace Nesbox

/-! ## Data model -/

/-- The `issue` object of a webhook payload: `{id, title}`. -/
structure GithubIssue where
  id : Nat
  title : String
deriving DecidableEq

/-- A parsed webhook payload (`github::GithubPayload`, fields used by the
handler): the `action` string, the `issue`, the declared `sender` identity and
the repository `owner` identity it is checked against. -/
structure GithubPayload where
  action : String
  issue : GithubIssue
  sender : String
  owner : String
deriving DecidableEq

/-- Modelled from the spec: `GithubPayload::is_owner` (module `github`, not
under `src/`) — "requires that the payloads declared actor matches an
authorized allow-list (e.g., the repository/project owner)". -/
def GithubPayload.is_owner (p : GithubPayload) : Bool :=
  p.sender == p.owner

/-- A persisted game record: `{id, name}` (metadata omitted, the core only
reads identifiers). -/
structure Game where
  id : Nat
  name : String
deriving DecidableEq

/-- The derived game specification handed to `create_game`. -/
structure ScNewGame where
  name : String
deriving DecidableEq

/-- The GameStore, modelled as the list of persisted records plus the next
fresh id. -/
structure Store where
  games : List Game
  nextId : Nat
deriving DecidableEq

/-- Modelled from the spec: `github::get_sc_new_game` (not under `src/`)
derives the game specification from the payload; the games name comes from
the issue title. -/
def get_sc_new_game (p : GithubPayload) : ScNewGame :=
  { name := p.issue.title }

/-- Modelled from the spec: `schemas::game::create_game` (not under `src/`)
persists one new record and returns it. -/
def create_game (st : Store) (spec : ScNewGame) : Game × Store :=
  let game : Game := { id := st.nextId, name := spec.name }
  (game, { games := game :: st.games, nextId := st.nextId + 1 })

/-- The lookup behind `schemas::game::get_game_from_name` (not under `src/`):
the first record carrying the given name, if any.  The call site visible in
`handles.rs` lines 128–129 accesses `.id` on the result directly, so the
repository function returns a bare record and can only abort when no record
matches; `none` here stands for that abort and is propagated as such by the
handler embedding below. -/
def get_game_from_name (st : Store) (name : String) : Option Game :=
  st.games.find? (fun g => g.name == name)

/-- Modelled from the spec: `schemas::game::delete_game` (not under `src/`)
removes the record with the given id from the store. -/
def delete_game (st : Store) (id : Nat) : Store :=
  { st with games := st.games.filter (fun g => g.id != id) }

/-- A broadcast notification (`schemas::notify::ScNotifyMessage`):
`new_game` carries the created record, `delete_game` carries the deleted id. -/
inductive ScNotifyMessage where
  | new_game (game : Game)
  | delete_game (id : Nat)
deriving DecidableEq

/-! ## Webhook signature validation (modelled) -/

/-- Modelled from the spec: the keyed hash (HMAC-style) over the raw body
using the secret, as computed by `github::validate` (not under `src/`). -/
def hmacSignature (secret body : String) : String :=
  "sha256=" ++ secret ++ "/" ++ body

/-- Modelled from the spec: `github::validate` (not under `src/`) compares the
requests signature header against the keyed hash of the raw body. -/
def validate (sigHeader : Option String) (secret body : String) : Bool :=
  sigHeader == some (hmacSignature secret body)

/-! ## Payload parsing

The raw body is a `String`; a well-formed body is the brace-delimited,
pipe-separated rendering of a payload.  The helpers below are written by
structural recursion on character lists so that they reduce inside the
kernel. -/

/-- Splits a character list at every pipe character. -/
def splitOnPipe : List Char → List (List Char)
  | [] => [[]]
  | c :: cs =>
    let rest := splitOnPipe cs
    if c = '|' then [] :: rest
    else
      match rest with
      | [] => [[c]]
      | r :: rs => (c :: r) :: rs

/-- Reads a nonempty run of decimal digits as a number. -/
def digitsToNatAux : List Char → Nat → Option Nat
  | [], acc => some acc
  | c :: cs, acc =>
    if c.isDigit then digitsToNatAux cs (acc * 10 + (c.toNat - 48)) else none

/-- Reads a decimal numeral; empty input is rejected. -/
def digitsToNat : List Char → Option Nat
  | [] => none
  | c :: cs => digitsToNatAux (c :: cs) 0

/-- Modelled from the spec: deserialization of the webhook body into a
`GithubPayload` (`serde_json::from_slice` in the handler).  A body parses
exactly when it is the brace-delimited, pipe-separated rendering
`\x7baction|issue_id|issue_title|sender|owner\x7d`; anything else is a
malformed payload. -/
def parsePayload (s : String) : Option GithubPayload :=
  match s.data with
  | '\x7b' :: rest =>
    match rest.reverse with
    | '\x7d' :: mid =>
      match splitOnPipe mid.reverse with
      | [a, i, t, se, ow] =>
        match digitsToNat i with
        | some n =>
          some { action := String.mk a, issue := { id := n, title := String.mk t },
                 sender := String.mk se, owner := String.mk ow }
        | none => none
      | _ => none
    | _ => none
  | _ => none

/-! ## The webhook handler -/

/-- The observable outcome of one webhook request: HTTP status, the store
after the request, the notifications published by `notify_all` during the
request, and the echoed payload of a `200 OK` response. -/
structure WebhookResponse where
  status : Nat
  store : Store
  published : List ScNotifyMessage
  body : Option GithubPayload
deriving DecidableEq

/-- The action dispatch of the webhook handler (`handles.rs` lines 123–134),
reached only after signature validation and sender authorization: `closed`
creates a game and notifies; `reopened` looks the game up by title and
unconditionally accesses its id, deletes it and notifies — when no record
matches, the lookup can only abort, modelled by `none`; any other action is
a no-op.  Every completed branch answers `200 OK` echoing the payload. -/
def webhookAction (payload : GithubPayload) (st : Store) : Option WebhookResponse :=
  if payload.action = "closed" then
    let (game, st2) := create_game st (get_sc_new_game payload)
    some { status := 200, store := st2, published := [ScNotifyMessage.new_game game],
           body := some payload }
  else if payload.action = "reopened" then
    match get_game_from_name st payload.issue.title with
    | some game =>
      some { status := 200, store := delete_game st game.id,
             published := [ScNotifyMessage.delete_game game.id], body := some payload }
    | none => none
  else
    some { status := 200, store := st, published := [], body := some payload }

/-- The `webhook` handler (`handles.rs` lines 107–135).  The body is first
parsed with `.unwrap()`: a `none` result models the process abort on a
malformed body.  A failed signature check or an unauthorized sender answers
`401 Unauthorized` with no store change and no notification; otherwise the
action dispatch runs (and its abort on a missing `reopened` record is
propagated). -/
def webhook (sigHeader : Option String) (secret body : String) (st : Store) :
    Option WebhookResponse :=
  match parsePayload body with
  | none => none
  | some payload =>
    if !(validate sigHeader secret body) || !payload.is_owner then
      some { status := 401, store := st, published := [], body := none }
    else
      webhookAction payload st

/-! ## Token authentication (modelled) -/

/-- A scalar connection-parameter value (juniper `DefaultScalarValue`); the
float variant carries no modelled payload. -/
inductive DefaultScalarValue where
  | int (i : Int)
  | float
  | string (s : String)
  | boolean (b : Bool)

/-- A connection-parameter value (juniper `InputValue`). -/
inductive InputValue where
  | null
  | scalar (v : DefaultScalarValue)
  | enumValue (s : String)
  | variableValue (s : String)
  | listValue (vs : List InputValue)
  | objectValue (fields : List (String × InputValue))

/-- Is this value a string scalar? Only such a value carries a credential. -/
def InputValue.isStringScalar : InputValue → Bool
  | InputValue.scalar (DefaultScalarValue.string _) => true
  | _ => false

/-- The connection parameters of a subscription handshake (juniper
`Variables`), a key-to-value map. -/
def Variables : Type := List (String × InputValue)

/-- Map lookup under an exact key, as juniper `Variables::get`. -/
def Variables.get (params : Variables) (key : String) : Option InputValue :=
  (List.find? (fun kv => kv.fst == key) params).map Prod.snd

/-- Strips a leading pattern from a character list, by structural recursion. -/
def stripLeading : List Char → List Char → Option (List Char)
  | [], rest => some rest
  | _ :: _, [] => none
  | p :: ps, c :: cs => if c = p then stripLeading ps cs else none

/-- Reads a decimal integer with an optional leading minus sign. -/
def decimalToInt : List Char → Option Int
  | '-' :: ds => (digitsToNat ds).map (fun n => -(n : Int))
  | ds => (digitsToNat ds).map (fun n => (n : Int))

/-- Modelled from the spec: `auth::extract_token_from_str` (not under `src/`)
extracts the raw credential from the header-style authorization string by
stripping the bearer marker; anything else carries no token. -/
def extract_token_from_str (s : String) : Option String :=
  match stripLeading "Bearer ".data s.data with
  | some rest => some (String.mk rest)
  | none => none

/-- Modelled from the spec: the TokenAuthenticator signing a principal id
under the shared secret, the shape `UserToken::parse` accepts. -/
def signToken (secret : String) (userId : Int) : String :=
  secret ++ ":" ++ toString userId

/-- Modelled from the spec: `auth::UserToken::parse` (not under `src/`)
"decodes and verifies the credentials signature against `secret`; fails with
`Unauthorized` if the signature is invalid, the credential is malformed, or
any embedded expiry has passed".  A token verifies exactly when it is a
principal id signed under the secret; the principal is returned. -/
def UserToken.parse (secret : String) (token : Option String) : Option Int :=
  match token with
  | none => none
  | some t =>
    match stripLeading (secret ++ ":").data t.data with
    | some rest => decimalToInt rest
    | none => none

/-! ## The subscriptions handler -/

/-- The resolver context built for an authenticated caller (`Context` of
`schemas::root`; the pool is not modelled). -/
structure Context where
  user_id : Int
deriving DecidableEq

/-- The connection configuration of an accepted subscription (juniper
`ConnectionConfig`): the context and the keep-alive interval in seconds. -/
structure ConnectionConfig where
  ctx : Context
  keep_alive_interval_secs : Nat
deriving DecidableEq

/-- Modelled from the juniper library: `ConnectionConfig::new` wraps a context
with the library default keep-alive of 15 seconds. -/
def ConnectionConfig.new (ctx : Context) : ConnectionConfig :=
  { ctx := ctx, keep_alive_interval_secs := 15 }

/-- Modelled from the juniper library: `with_keep_alive_interval` replaces the
keep-alive interval. -/
def ConnectionConfig.with_keep_alive_interval (c : ConnectionConfig) (secs : Nat) :
    ConnectionConfig :=
  { c with keep_alive_interval_secs := secs }

/-- The credential value of a handshake (`handles.rs` lines 30–32): the value
under `authorization`, else the value under `Authorization`, else null. -/
def authorizationOf (params : Variables) : InputValue :=
  (Variables.get params "authorization").getD
    ((Variables.get params "Authorization").getD InputValue.null)

/-- The authenticated principal of a handshake (`handles.rs` lines 33–38): a
string-scalar credential is run through `UserToken::parse`; any other value
yields no principal. -/
def credentialUser (secret : String) (params : Variables) : Option Int :=
  match authorizationOf params with
  | InputValue.scalar (DefaultScalarValue.string auth_string) =>
    UserToken.parse secret (extract_token_from_str auth_string)
  | _ => none

/-- The on-connect callback of the `subscriptions` handler (`handles.rs`
lines 29–48): an authenticated principal yields an open connection with a
15-second keep-alive; otherwise the upgrade is rejected with
`401 Unauthorized` and no connection is registered. -/
def subscriptionsOnConnect (secret : String) (params : Variables) :
    Except String ConnectionConfig :=
  match credentialUser secret params with
  | some user_id =>
    Except.ok ((ConnectionConfig.new { user_id := user_id }).with_keep_alive_interval 15)
  | none => Except.error "Unauthorized"

/-! ## The schema-introspection handler -/

/-- The observable outcome of the schema-introspection endpoint: the HTTP
status, the context under which introspection ran, and whether introspection
was executed. -/
structure SchemaResponse where
  status : Nat
  ctx : Context
  introspected : Bool
deriving DecidableEq

/-- The `graphqlschema` handler (`handles.rs` lines 72–79).  The handler
extracts no credential from the request — the argument below stands for
whatever credential the caller may or may not present, and is ignored — and
runs introspection under a fixed context with `user_id := 0`, answering
`200 OK`. -/
def graphqlschema (_credential : Option String) : SchemaResponse :=
  { status := 200, ctx := { user_id := 0 }, introspected := true }

/-! ## Theorems: the webhook handler -/

/-- C1: a webhook request whose signature fails validation or whose declared
sender is not the authorized owner answers `401 Unauthorized`, leaves the
store unchanged (no `create_game`, no `delete_game`) and publishes no
notification. -/
theorem webhook_rejected_no_mutation_no_publish
    (sigHeader : Option String) (secret body : String) (st : Store)
    (payload : GithubPayload)
    (hparse : parsePayload body = some payload)
    (hrej : validate sigHeader secret body = false ∨ payload.is_owner = false) :
    webhook sigHeader secret body st =
      some { status := 401, store := st, published := [], body := none } := by
  unfold webhook
  rw [hparse]
  rcases hrej with h | h <;> simp [h]

/-- C1 witness: a concrete request with no signature header from a sender who
is not the owner is rejected without mutation or publication. -/
theorem webhook_rejected_no_mutation_no_publish_witness :
    webhook none "s" "\x7bclosed|1|Foo|mallory|yinmoyu\x7d" { games := [], nextId := 0 } =
      some { status := 401, store := { games := [], nextId := 0 }, published := [],
             body := none } :=
  webhook_rejected_no_mutation_no_publish none "s" "\x7bclosed|1|Foo|mallory|yinmoyu\x7d"
    { games := [], nextId := 0 }
    { action := "closed", issue := { id := 1, title := "Foo" }, sender := "mallory",
      owner := "yinmoyu" }
    (by decide) (Or.inr (by decide))

/-- C2 (defect witness): on a body that does not parse as the payload schema,
the handler does not answer a client error — `.unwrap()` aborts the process,
modelled by the handler yielding no response at all. -/
theorem webhook_malformed_body_aborts :
    parsePayload "not json" = none ∧
    webhook none "s" "not json" { games := [], nextId := 0 } = none :=
  ⟨rfl, rfl⟩

/-- C3: a validated, authorized payload with action `closed` creates exactly
one record via `create_game` and publishes exactly one `new_game`
notification, both carrying the game specification derived from the payload
by `get_sc_new_game`. -/
theorem webhook_closed_creates_and_notifies
    (sigHeader : Option String) (secret body : String) (st : Store)
    (payload : GithubPayload)
    (hparse : parsePayload body = some payload)
    (hsig : validate sigHeader secret body = true)
    (hown : payload.is_owner = true)
    (hact : payload.action = "closed") :
    webhook sigHeader secret body st =
      some { status := 200,
             store := { games := { id := st.nextId, name := (get_sc_new_game payload).name }
                          :: st.games,
                        nextId := st.nextId + 1 },
             published := [ScNotifyMessage.new_game
                             { id := st.nextId, name := (get_sc_new_game payload).name }],
             body := some payload } := by
  unfold webhook webhookAction create_game
  rw [hparse]
  simp [hsig, hown, hact]

/-- C3 witness: a concrete validly-signed owner payload with action `closed`
creates one record named after the issue and broadcasts it. -/
theorem webhook_closed_creates_and_notifies_witness :
    webhook (some "sha256=s/\x7bclosed|42|Foo|yinmoyu|yinmoyu\x7d") "s"
        "\x7bclosed|42|Foo|yinmoyu|yinmoyu\x7d" { games := [], nextId := 0 } =
      some { status := 200,
             store := { games := [{ id := 0, name := "Foo" }], nextId := 1 },
             published := [ScNotifyMessage.new_game { id := 0, name := "Foo" }],
             body := some { action := "closed", issue := { id := 42, title := "Foo" },
                            sender := "yinmoyu", owner := "yinmoyu" } } :=
  webhook_closed_creates_and_notifies
    (some "sha256=s/\x7bclosed|42|Foo|yinmoyu|yinmoyu\x7d") "s"
    "\x7bclosed|42|Foo|yinmoyu|yinmoyu\x7d" { games := [], nextId := 0 }
    { action := "closed", issue := { id := 42, title := "Foo" }, sender := "yinmoyu",
      owner := "yinmoyu" }
    (by decide) (by decide) (by decide) rfl

/-- C4: a validated payload with action `reopened` whose issue title names an
existing record deletes exactly that record (the store keeps precisely the
records with a different id), publishes exactly one `delete_game`
notification carrying the deleted id, and the record is absent afterwards. -/
theorem webhook_reopened_deletes_and_notifies
    (sigHeader : Option String) (secret body : String) (st : Store)
    (payload : GithubPayload) (game : Game)
    (hparse : parsePayload body = some payload)
    (hsig : validate sigHeader secret body = true)
    (hown : payload.is_owner = true)
    (hact : payload.action = "reopened")
    (hfound : get_game_from_name st payload.issue.title = some game) :
    webhook sigHeader secret body st =
      some { status := 200,
             store := { games := st.games.filter (fun g => g.id != game.id),
                        nextId := st.nextId },
             published := [ScNotifyMessage.delete_game game.id],
             body := some payload } ∧
    ∀ g ∈ (delete_game st game.id).games, g.id ≠ game.id := by
  constructor
  · unfold webhook webhookAction delete_game
    rw [hparse]
    simp [hsig, hown, hact, hfound]
  · intro g hg
    simp [delete_game, List.mem_filter] at hg
    exact hg.2

/-- C4 witness: a concrete validly-signed `reopened` payload deletes the
record named `Foo`, broadcasts its id, and the record is gone. -/
theorem webhook_reopened_deletes_and_notifies_witness :
    webhook (some "sha256=s/\x7breopened|42|Foo|yinmoyu|yinmoyu\x7d") "s"
        "\x7breopened|42|Foo|yinmoyu|yinmoyu\x7d"
        { games := [{ id := 5, name := "Foo" }], nextId := 6 } =
      some { status := 200,
             store := { games := [], nextId := 6 },
             published := [ScNotifyMessage.delete_game 5],
             body := some { action := "reopened", issue := { id := 42, title := "Foo" },
                            sender := "yinmoyu", owner := "yinmoyu" } } :=
  ((webhook_reopened_deletes_and_notifies
      (some "sha256=s/\x7breopened|42|Foo|yinmoyu|yinmoyu\x7d") "s"
      "\x7breopened|42|Foo|yinmoyu|yinmoyu\x7d"
      { games := [{ id := 5, name := "Foo" }], nextId := 6 }
      { action := "reopened", issue := { id := 42, title := "Foo" }, sender := "yinmoyu",
        owner := "yinmoyu" }
      { id := 5, name := "Foo" }
      (by decide) (by decide) (by decide) rfl (by decide)).1)

/-- C5 (defect witness): a validated `reopened` payload whose issue title
matches no record does not degrade to a no-op.  The handler accesses the
lookup result unconditionally (`handles.rs` lines 128–130), so on a missing
record it aborts instead of answering a success with no mutation and no
publication: at a concrete validly-signed owner payload over an empty store,
the lookup finds nothing and the handler yields no response. -/
theorem webhook_reopened_missing_record_aborts :
    get_game_from_name { games := [], nextId := 0 } "Foo" = none ∧
    webhook (some "sha256=s/\x7breopened|42|Foo|yinmoyu|yinmoyu\x7d") "s"
        "\x7breopened|42|Foo|yinmoyu|yinmoyu\x7d" { games := [], nextId := 0 } = none :=
  ⟨rfl, rfl⟩

/-- C6: a validated payload whose action is neither `closed` nor `reopened`
mutates nothing, publishes nothing, and answers `200 OK` echoing the
payload. -/
theorem webhook_other_action_noop
    (sigHeader : Option String) (secret body : String) (st : Store)
    (payload : GithubPayload)
    (hparse : parsePayload body = some payload)
    (hsig : validate sigHeader secret body = true)
    (hown : payload.is_owner = true)
    (hc : payload.action ≠ "closed")
    (hr : payload.action ≠ "reopened") :
    webhook sigHeader secret body st =
      some { status := 200, store := st, published := [], body := some payload } := by
  unfold webhook webhookAction
  rw [hparse]
  simp [hsig, hown, hc, hr]

/-- C6 witness: a concrete validly-signed payload with action `opened` is
echoed back with no mutation and no notification. -/
theorem webhook_other_action_noop_witness :
    webhook (some "sha256=s/\x7bopened|42|Foo|yinmoyu|yinmoyu\x7d") "s"
        "\x7bopened|42|Foo|yinmoyu|yinmoyu\x7d" { games := [], nextId := 0 } =
      some { status := 200, store := { games := [], nextId := 0 }, published := [],
             body := some { action := "opened", issue := { id := 42, title := "Foo" },
                            sender := "yinmoyu", owner := "yinmoyu" } } :=
  webhook_other_action_noop
    (some "sha256=s/\x7bopened|42|Foo|yinmoyu|yinmoyu\x7d") "s"
    "\x7bopened|42|Foo|yinmoyu|yinmoyu\x7d" { games := [], nextId := 0 }
    { action := "opened", issue := { id := 42, title := "Foo" }, sender := "yinmoyu",
      owner := "yinmoyu" }
    (by decide) (by decide) (by decide) (by decide) (by decide)

/-! ## Theorems: the subscriptions handler -/

/-- Helper: an accepted handshake carries a principal recognised by the
credential check, and its keep-alive interval is 15 seconds. -/
theorem subscriptionsOnConnect_ok (secret : String) (params : Variables)
    (cfg : ConnectionConfig)
    (h : subscriptionsOnConnect secret params = Except.ok cfg) :
    credentialUser secret params = some cfg.ctx.user_id ∧
    cfg.keep_alive_interval_secs = 15 := by
  unfold subscriptionsOnConnect at h
  cases hcu : credentialUser secret params with
  | none => rw [hcu] at h; cases h
  | some uid =>
    rw [hcu] at h
    injection h with h2
    subst h2
    exact ⟨rfl, rfl⟩

/-- Helper: the credential check yields a principal only from a string-scalar
credential that `UserToken.parse` accepts. -/
theorem credentialUser_eq_some (secret : String) (params : Variables) (uid : Int)
    (h : credentialUser secret params = some uid) :
    ∃ s, authorizationOf params = InputValue.scalar (DefaultScalarValue.string s) ∧
      UserToken.parse secret (extract_token_from_str s) = some uid := by
  unfold credentialUser at h
  split at h
  next s heq => exact ⟨s, heq, h⟩
  next => cases h

/-- C7: a subscription connection reaches the open state only after
`UserToken.parse` succeeds on the supplied string credential, and when the
credential check yields no principal the upgrade is rejected with
`Unauthorized` and no connection is produced. -/
theorem subscriptions_open_requires_token (secret : String) (params : Variables) :
    (∀ cfg, subscriptionsOnConnect secret params = Except.ok cfg →
      ∃ s, authorizationOf params = InputValue.scalar (DefaultScalarValue.string s) ∧
        UserToken.parse secret (extract_token_from_str s) = some cfg.ctx.user_id) ∧
    (credentialUser secret params = none →
      subscriptionsOnConnect secret params = Except.error "Unauthorized") := by
  constructor
  · intro cfg h
    exact credentialUser_eq_some secret params cfg.ctx.user_id
      (subscriptionsOnConnect_ok secret params cfg h).1
  · intro h
    unfold subscriptionsOnConnect
    rw [h]

/-- C7 witness: a concrete valid bearer token opens a connection whose
principal the token encodes, and a handshake with no parameters at all is
rejected as unauthorized. -/
theorem subscriptions_open_requires_token_witness :
    (∃ s, authorizationOf
        [("authorization", InputValue.scalar (DefaultScalarValue.string "Bearer s:7"))] =
        InputValue.scalar (DefaultScalarValue.string s) ∧
      UserToken.parse "s" (extract_token_from_str s) =
        some (ConnectionConfig.mk (Context.mk 7) 15).ctx.user_id) ∧
    subscriptionsOnConnect "s" [] = Except.error "Unauthorized" :=
  ⟨(subscriptions_open_requires_token "s"
      [("authorization", InputValue.scalar (DefaultScalarValue.string "Bearer s:7"))]).1
      (ConnectionConfig.mk (Context.mk 7) 15) rfl,
   (subscriptions_open_requires_token "s" []).2 rfl⟩

/-- C8: every successfully authenticated subscription connection is
configured with a keep-alive interval of exactly 15 seconds. -/
theorem subscriptions_keep_alive_15 (secret : String) (params : Variables)
    (cfg : ConnectionConfig)
    (h : subscriptionsOnConnect secret params = Except.ok cfg) :
    cfg.keep_alive_interval_secs = 15 :=
  (subscriptionsOnConnect_ok secret params cfg h).2

/-- C8 witness: the connection opened by a concrete valid token has a
15-second keep-alive interval. -/
theorem subscriptions_keep_alive_15_witness :
    (ConnectionConfig.mk (Context.mk 7) 15).keep_alive_interval_secs = 15 :=
  subscriptions_keep_alive_15 "s"
    [("authorization", InputValue.scalar (DefaultScalarValue.string "Bearer s:7"))]
    (ConnectionConfig.mk (Context.mk 7) 15) rfl

/-- C9: the handshake credential is the value under the key `authorization`,
falling back to `Authorization` only when the lowercase key is absent; and
any credential value that is not a string scalar (null, missing key, or any
other shape) leads to an `Unauthorized` rejection. -/
theorem subscriptions_credential_lookup (secret : String) (params : Variables) :
    (∀ v, Variables.get params "authorization" = some v → authorizationOf params = v) ∧
    (Variables.get params "authorization" = none →
      authorizationOf params = (Variables.get params "Authorization").getD InputValue.null) ∧
    ((authorizationOf params).isStringScalar = false →
      subscriptionsOnConnect secret params = Except.error "Unauthorized") := by
  refine ⟨?_, ?_, ?_⟩
  · intro v h
    unfold authorizationOf
    rw [h]
    rfl
  · intro h
    unfold authorizationOf
    rw [h]
    rfl
  · intro h
    have hcu : credentialUser secret params = none := by
      unfold credentialUser
      split
      next s heq => rw [heq] at h; simp [InputValue.isStringScalar] at h
      next => rfl
    unfold subscriptionsOnConnect
    rw [hcu]

/-- C9 witness: a handshake whose `authorization` parameter is null is
rejected as unauthorized. -/
theorem subscriptions_credential_lookup_witness :
    subscriptionsOnConnect "s" [("authorization", InputValue.null)] =
      Except.error "Unauthorized" :=
  (subscriptions_credential_lookup "s" [("authorization", InputValue.null)]).2.2 rfl

/-! ## Theorems: the schema-introspection handler -/

/-- C10: for every possible credential, including an absent one, the
schema-introspection endpoint runs introspection under the fixed context with
`user_id = 0` and answers `200 OK` — no credential verification happens. -/
theorem graphqlschema_unauthenticated (credential : Option String) :
    graphqlschema credential =
      { status := 200, ctx := { user_id := 0 }, introspected := true } :=
  rfl

end Nesbox
